import Mathlib

/-!
Shallow embedding of the image-classification core of
`src/backend/python/ai_service.py` (feature extraction, heuristic scoring,
per-image prediction, batch aggregation), together with theorems checking
the specification's claims about it.

Conventions of the embedding:
* pixel channels are natural numbers (8-bit values in practice);
* all float arithmetic of the source is modelled with exact rationals `ℚ`;
* `round(x, k)` of Python is modelled as round-half-to-even on `10^k * x`;
* a raised-and-caught exception becomes the `invalid` prediction the
  `except` branch of the source constructs;
* the filesystem and the image decoder are modelled by `PathOutcome`:
  each requested path either does not exist, fails to decode, or yields
  a decoded RGB raster.
-/

/-- One RGB pixel, channel values as (unbounded) naturals; the source
converts every image to mode "RGB" and casts channels to int32. -/
structure Pix where
  r : ℕ
  g : ℕ
  b : ℕ
deriving DecidableEq

/-- A decoded image: height `h`, width `w`, and the pixel grid
(`pix i j` is row `i`, column `j`, matching `arr[i, j]`). -/
structure RasterImage where
  h : ℕ
  w : ℕ
  pix : ℕ → ℕ → Pix

/-- green_mask = (g > r + 20) & (g > b + 10) & (g > 80). -/
def green_mask (p : Pix) : Bool :=
  decide (p.r + 20 < p.g) && decide (p.b + 10 < p.g) && decide (80 < p.g)

/-- brown_mask = (r > 100) & (g > 60) & (b < 80) & (r > g) & (g > b). -/
def brown_mask (p : Pix) : Bool :=
  decide (100 < p.r) && decide (60 < p.g) && decide (p.b < 80) &&
    decide (p.g < p.r) && decide (p.b < p.g)

/-- blue_mask = (b > r + 15) & (b > g + 10) & (b > 60). -/
def blue_mask (p : Pix) : Bool :=
  decide (p.r + 15 < p.b) && decide (p.g + 10 < p.b) && decide (60 < p.b)

/-- gray_mask = (|r-g| < 20) & (|g-b| < 20) & (|r-b| < 20), computed on
signed integers exactly as the int32 arrays of the source. -/
def gray_mask (p : Pix) : Bool :=
  decide (|(p.r : ℤ) - p.g| < 20) && decide (|(p.g : ℤ) - p.b| < 20) &&
    decide (|(p.r : ℤ) - p.b| < 20)

/-- Number of pixels of `img` satisfying `mask`
(`np.count_nonzero(mask)`). -/
def maskCount (img : RasterImage) (mask : Pix → Bool) : ℕ :=
  ∑ i ∈ Finset.range img.h, ∑ j ∈ Finset.range img.w,
    if mask (img.pix i j) then 1 else 0

/-- `total = h * w`. -/
def totalPixels (img : RasterImage) : ℕ := img.h * img.w

/-- Sum of a per-pixel quantity over the whole grid. -/
def sumPix (img : RasterImage) (f : ℕ → ℕ → ℚ) : ℚ :=
  ∑ i ∈ Finset.range img.h, ∑ j ∈ Finset.range img.w, f i j

/-- Mean of a per-pixel quantity (`np.mean`). -/
def meanPix (img : RasterImage) (f : ℕ → ℕ → ℚ) : ℚ :=
  sumPix img f / (totalPixels img : ℚ)

/-- Grayscale luminance `np.dot(arr[...,:3], [0.2989, 0.5870, 0.1140])`. -/
def lum (p : Pix) : ℚ :=
  ((2989 * p.r + 5870 * p.g + 1140 * p.b : ℕ) : ℚ) / 10000

/-- Luminance of the pixel at row `i`, column `j`. -/
def lumAt (img : RasterImage) (i j : ℕ) : ℚ := lum (img.pix i j)

/-- Mean luminance of the image. -/
def lumMean (img : RasterImage) : ℚ := meanPix img (lumAt img)

/-- `texture_variance = np.var(gray_img)`: population variance of the
luminance field. -/
def texture_variance (img : RasterImage) : ℚ :=
  meanPix img (fun i j => (lumAt img i j - lumMean img) ^ 2)

/-- `np.gradient(gray_img, axis=1)` at row `i`, column `j`: one-sided
difference at the two column borders, central difference inside.
Meaningful only when `img.w ≥ 2` (otherwise numpy raises, which the
caller turns into an `invalid` prediction). -/
def gradX (img : RasterImage) (i j : ℕ) : ℚ :=
  if j = 0 then lumAt img i 1 - lumAt img i 0
  else if j = img.w - 1 then lumAt img i (img.w - 1) - lumAt img i (img.w - 2)
  else (lumAt img i (j + 1) - lumAt img i (j - 1)) / 2

/-- `np.gradient(gray_img, axis=0)` at row `i`, column `j`. -/
def gradY (img : RasterImage) (i j : ℕ) : ℚ :=
  if i = 0 then lumAt img 1 j - lumAt img 0 j
  else if i = img.h - 1 then lumAt img (img.h - 1) j - lumAt img (img.h - 2) j
  else (lumAt img (i + 1) j - lumAt img (i - 1) j) / 2

/-- `edge_density = np.mean(np.abs(grad_x) + np.abs(grad_y))`. -/
def edge_density (img : RasterImage) : ℚ :=
  meanPix img (fun i j => |gradX img i j| + |gradY img i j|)

/-- The feature vector computed by `analyze_image_heuristic` before
scoring. Field names follow the `details` dictionary of the source. -/
structure FeatureVector where
  greenRatio : ℚ
  brownRatio : ℚ
  blueRatio : ℚ
  grayRatio : ℚ
  averageBrightness : ℚ
  textureVariance : ℚ
  edgeDensity : ℚ
  width : ℕ
  height : ℕ
deriving DecidableEq

/-- Feature extraction over the full pixel grid (lines 113-138 of
`ai_service.py`). -/
def extractFeatures (img : RasterImage) : FeatureVector where
  greenRatio := (maskCount img green_mask : ℚ) / (totalPixels img : ℚ)
  brownRatio := (maskCount img brown_mask : ℚ) / (totalPixels img : ℚ)
  blueRatio := (maskCount img blue_mask : ℚ) / (totalPixels img : ℚ)
  grayRatio := (maskCount img gray_mask : ℚ) / (totalPixels img : ℚ)
  averageBrightness :=
    meanPix img (fun i j =>
      (((img.pix i j).r + (img.pix i j).g + (img.pix i j).b : ℕ) : ℚ) / 3)
  textureVariance := texture_variance img
  edgeDensity := edge_density img
  width := img.w
  height := img.h

/-- The four class scores; insertion order of the source dictionary is
`mangrove, cutting, pollution, encroachment`. -/
structure Scores where
  mangrove : ℚ
  cutting : ℚ
  pollution : ℚ
  encroachment : ℚ
deriving DecidableEq

/-- The additive scoring rules of `analyze_image_heuristic`
(lines 141-169), in source order, as sequential updates of the four
accumulators. -/
def computeScores (fv : FeatureVector) : Scores :=
  let mangrove_score : ℚ := 0
  let cutting_score : ℚ := 0
  let pollution_score : ℚ := 0
  let encroachment_score : ℚ := 0
  -- Color-based scoring
  let mangrove_score :=
    if fv.greenRatio > 0.25 ∧ fv.blueRatio > 0.05 then
      mangrove_score + (0.4 + min 0.3 fv.greenRatio) else mangrove_score
  let cutting_score :=
    if fv.brownRatio > 0.2 ∧ fv.greenRatio < 0.1 then
      cutting_score + (0.4 + min 0.3 fv.brownRatio) else cutting_score
  let pollution_score :=
    if fv.blueRatio > 0.4 then
      pollution_score + (0.4 + min 0.3 fv.blueRatio) else pollution_score
  let pollution_score :=
    if fv.grayRatio > 0.3 then pollution_score + 0.2 else pollution_score
  let encroachment_score :=
    if fv.grayRatio > 0.3 then encroachment_score + 0.2 else encroachment_score
  -- Texture-based scoring
  let mangrove_score :=
    if fv.textureVariance > 500 then mangrove_score + 0.2 else mangrove_score
  let encroachment_score :=
    if fv.textureVariance > 500 then encroachment_score
    else if fv.textureVariance < 100 then encroachment_score + 0.3
    else encroachment_score
  -- Edge-based scoring
  let cutting_score :=
    if fv.edgeDensity > 10 then cutting_score + 0.2 else cutting_score
  let encroachment_score :=
    if fv.edgeDensity > 10 then encroachment_score + 0.2 else encroachment_score
  ⟨mangrove_score, cutting_score, pollution_score, encroachment_score⟩

/-- Lookup `scores[k]` in the score dictionary. -/
def scoreOf (s : Scores) (k : String) : ℚ :=
  if k = "mangrove" then s.mangrove
  else if k = "cutting" then s.cutting
  else if k = "pollution" then s.pollution
  else if k = "encroachment" then s.encroachment
  else 0

/-- Python's `max(..., key=...)`: scan left to right, replace the current
best only on a strictly greater value, so ties keep the earliest entry. -/
def maxEntry {α : Type} [LinearOrder α] :
    String × α → List (String × α) → String × α
  | best, [] => best
  | best, x :: rest => maxEntry (if best.2 < x.2 then x else best) rest

/-- `primary_class = max(scores.keys(), key=lambda k: scores[k])` over the
insertion-ordered score dictionary. -/
def selectClass (s : Scores) : String :=
  (maxEntry ("mangrove", s.mangrove)
    [("cutting", s.cutting), ("pollution", s.pollution),
     ("encroachment", s.encroachment)]).1

/-- `confidence = min(scores[primary_class], 0.95)`. -/
def rawConfidence (s : Scores) : ℚ := min (scoreOf s (selectClass s)) 0.95

/-- Class name after the low-confidence fallback (lines 183-185). -/
def finalClass (fv : FeatureVector) : String :=
  if rawConfidence (computeScores fv) < 0.3 then "unknown"
  else selectClass (computeScores fv)

/-- Confidence after the low-confidence fallback,
`0.4 + max(0.0, min(0.2, green_ratio))` in the fallback branch. -/
def finalConfidence (fv : FeatureVector) : ℚ :=
  if rawConfidence (computeScores fv) < 0.3 then
    0.4 + max 0 (min 0.2 fv.greenRatio)
  else rawConfidence (computeScores fv)

/-- Round-half-to-even to an integer, the tie behavior of Python's
`round` on an exact value. -/
def roundHE (q : ℚ) : ℤ :=
  if q - ⌊q⌋ < 1 / 2 then ⌊q⌋
  else if 1 / 2 < q - ⌊q⌋ then ⌊q⌋ + 1
  else if ⌊q⌋ % 2 = 0 then ⌊q⌋ else ⌊q⌋ + 1

/-- Python's `round(q, k)` on an exact rational value. -/
def roundTo (k : ℕ) (q : ℚ) : ℚ := (roundHE (q * 10 ^ k) : ℚ) / 10 ^ k

/-- Diagnostic `details` attached to a successful prediction
(lines 191-201): rounded features, dimensions and rounded score map. -/
structure DiagDetails where
  greenRatio : ℚ
  brownRatio : ℚ
  blueRatio : ℚ
  grayRatio : ℚ
  averageBrightness : ℚ
  textureVariance : ℚ
  edgeDensity : ℚ
  width : ℕ
  height : ℕ
  mangroveScore : ℚ
  cuttingScore : ℚ
  pollutionScore : ℚ
  encroachmentScore : ℚ
deriving DecidableEq

/-- The `details` field of an `ImagePrediction`: the default empty
dictionary, an error dictionary `{"error": msg}`, or the diagnostic
dictionary of a successful analysis. -/
inductive PredDetails where
  | empty
  | err (msg : String)
  | diag (d : DiagDetails)
deriving DecidableEq

/-- The `ImagePrediction` pydantic model (lines 63-68), with its default
field values. -/
structure ImagePrediction where
  className : String := "unknown"
  confidence : ℚ := 0
  model : String := "python-heuristic-v1"
  timestamp : Option String := Option.none
  details : PredDetails := PredDetails.empty
deriving DecidableEq

/-- `analyze_image_heuristic` on an already-decoded image.  An image with
fewer than 2 rows or columns makes `np.gradient` raise, which the
`except` branch converts into the `invalid` prediction. -/
def analyze_image_heuristic (img : RasterImage) : ImagePrediction :=
  if img.h < 2 ∨ img.w < 2 then
    { className := "invalid"
      confidence := 0
      model := "python-heuristic-v2"
      details := PredDetails.err
        "Shape of array too small to calculate a numerical gradient, at least (edge_order + 1) elements are required." }
  else
    let fv := extractFeatures img
    let s := computeScores fv
    { className := finalClass fv
      confidence := roundTo 3 (finalConfidence fv)
      model := "python-heuristic-v2"
      details := PredDetails.diag
        { greenRatio := roundTo 4 fv.greenRatio
          brownRatio := roundTo 4 fv.brownRatio
          blueRatio := roundTo 4 fv.blueRatio
          grayRatio := roundTo 4 fv.grayRatio
          averageBrightness := roundTo 2 fv.averageBrightness
          textureVariance := roundTo 2 fv.textureVariance
          edgeDensity := roundTo 2 fv.edgeDensity
          width := fv.width
          height := fv.height
          mangroveScore := roundTo 3 s.mangrove
          cuttingScore := roundTo 3 s.cutting
          pollutionScore := roundTo 3 s.pollution
          encroachmentScore := roundTo 3 s.encroachment } }

/-- What a requested path resolves to: the file does not exist, it exists
but opening or decoding it raises, or it decodes to a raster. -/
inductive PathOutcome where
  | missing (absPath : String)
  | decodeError (msg : String)
  | image (img : RasterImage)

/-- The per-path processing of the `/classify` loop (lines 226-238):
a missing path becomes an `invalid` prediction built with the model
field's default value, everything else goes through
`analyze_image_heuristic` (whose `except` branch yields the `invalid`
prediction for a decode failure). -/
def processPath : PathOutcome → ImagePrediction
  | .missing p =>
      { className := "invalid"
        confidence := 0
        details := PredDetails.err ("File not found: " ++ p) }
  | .decodeError m =>
      { className := "invalid"
        confidence := 0
        model := "python-heuristic-v2"
        details := PredDetails.err m }
  | .image img => analyze_image_heuristic img

/-- Request-level failures of `/classify`: HTTP 503 when models are not
loaded, HTTP 400 when the path list is empty. -/
inductive ServiceError where
  | notInitialized
  | noPaths
deriving DecidableEq

/-- The `ImageClassificationResponse` model (lines 70-76). -/
structure BatchResponse where
  predictions : List ImagePrediction
  averageConfidence : ℚ
  primaryClass : String
  isValid : Bool
  totalImages : ℕ
  validImages : ℕ

/-- One step of the `class_counts` tally: increment an existing key in
place or append a new key with count 1 (dictionary insertion order). -/
def bump : List (String × ℕ) → String → List (String × ℕ)
  | [], k => [(k, 1)]
  | (k2, n) :: rest, k =>
      if k2 = k then (k2, n + 1) :: rest else (k2, n) :: bump rest k

/-- The `class_counts` dictionary built over the valid predictions. -/
def countClasses (ps : List ImagePrediction) : List (String × ℕ) :=
  ps.foldl (fun acc p => bump acc p.className) []

/-- `max(class_counts.keys(), ...) if class_counts else "unknown"`. -/
def primaryOf (counts : List (String × ℕ)) : String :=
  match counts with
  | [] => "unknown"
  | c :: rest => (maxEntry c rest).1

/-- The `valid_predictions` list of the `/classify` endpoint: the per-path
predictions whose class is not the `invalid` sentinel. -/
def validPreds (paths : List PathOutcome) : List ImagePrediction :=
  (paths.map processPath).filter (fun p => decide (p.className ≠ "invalid"))

/-- The `avg_confidence` value of the `/classify` endpoint:
`sum(p.confidence for p in valid_predictions) / len(valid_predictions)
if valid_predictions else 0.0`. -/
def batchAvg (paths : List PathOutcome) : ℚ :=
  if (validPreds paths).isEmpty then 0
  else ((validPreds paths).map (fun p => p.confidence)).sum
    / ((validPreds paths).length : ℚ)

/-- The `/classify` endpoint (lines 213-259): request-level checks, the
per-path loop, and batch aggregation. -/
def classify_images (modelsLoaded : Bool) (paths : List PathOutcome) :
    Except ServiceError BatchResponse :=
  if ¬ modelsLoaded then .error .notInitialized
  else if paths.isEmpty then .error .noPaths
  else
    .ok
      { predictions := paths.map processPath
        averageConfidence := roundTo 3 (batchAvg paths)
        primaryClass := primaryOf (countClasses (validPreds paths))
        isValid := decide (batchAvg paths > 0.6)
        totalImages := paths.length
        validImages := (validPreds paths).length }

/-- Constant image of a single pixel value. -/
def uniformImg (p : Pix) (h w : ℕ) : RasterImage := ⟨h, w, fun _ _ => p⟩

/-- The fixed enumeration order of the four classes: the insertion order
of the `scores` dictionary of the source. -/
def classOrder : List String := ["mangrove", "cutting", "pollution", "encroachment"]

/-- Position of a class name in `classOrder` (4 for anything else). -/
def classIdx (k : String) : ℕ :=
  if k = "mangrove" then 0
  else if k = "cutting" then 1
  else if k = "pollution" then 2
  else if k = "encroachment" then 3
  else 4

/-- Projection of a batch result out of the `Except`, with an inert
default for the error case (used only to state concrete evaluations). -/
def getResp (e : Except ServiceError BatchResponse) : BatchResponse :=
  match e with
  | .ok r => r
  | .error _ => ⟨[], 0, "unknown", false, 0, 0⟩

/-! ### Helper lemmas: rounding -/

/-- Rounding an exact integer is the identity. -/
theorem roundHE_intCast (n : ℤ) : roundHE (n : ℚ) = n := by
  unfold roundHE
  simp [Int.floor_intCast]

/-- Evaluation of `roundHE` when the value sits in `[n, n + 1/2)`. -/
theorem roundHE_eq_of_lt_half (q : ℚ) (n : ℤ) (h1 : (n : ℚ) ≤ q)
    (h2 : q < (n : ℚ) + 1 / 2) : roundHE q = n := by
  have hfl : ⌊q⌋ = n := by
    rw [Int.floor_eq_iff]
    constructor
    · exact_mod_cast h1
    · linarith
  unfold roundHE
  rw [hfl]
  rw [if_pos (by linarith)]

/-- Rounding preserves nonnegativity. -/
theorem roundHE_nonneg (q : ℚ) (h : 0 ≤ q) : 0 ≤ roundHE q := by
  have h0 : (0 : ℤ) ≤ ⌊q⌋ := Int.floor_nonneg.mpr h
  unfold roundHE
  split_ifs <;> omega

/-- Rounding never exceeds an integer upper bound of the value. -/
theorem roundHE_le (q : ℚ) (n : ℤ) (h : q ≤ (n : ℚ)) : roundHE q ≤ n := by
  have h0 : ⌊q⌋ ≤ n := by
    calc ⌊q⌋ ≤ ⌊(n : ℚ)⌋ := Int.floor_le_floor h
    _ = n := Int.floor_intCast n
  unfold roundHE
  split_ifs with h1 h2 h3
  · exact h0
  · have hq : (⌊q⌋ : ℚ) ≤ q - 1 / 2 := by linarith
    have hlt : (⌊q⌋ : ℚ) < (n : ℚ) := by
      have := Int.floor_le q
      linarith
    have : ⌊q⌋ < n := by exact_mod_cast hlt
    omega
  · exact h0
  · have hq : (⌊q⌋ : ℚ) ≤ q - 1 / 2 := by linarith
    have hlt : (⌊q⌋ : ℚ) < (n : ℚ) := by
      have := Int.floor_le q
      linarith
    have : ⌊q⌋ < n := by exact_mod_cast hlt
    omega

/-- `roundTo` preserves nonnegativity. -/
theorem roundTo_nonneg (k : ℕ) (q : ℚ) (h : 0 ≤ q) : 0 ≤ roundTo k q := by
  unfold roundTo
  have h1 : (0 : ℤ) ≤ roundHE (q * 10 ^ k) := by
    apply roundHE_nonneg
    positivity
  positivity

/-- `roundTo k` never exceeds a bound that is exact at `k` decimals. -/
theorem roundTo_le (k : ℕ) (q : ℚ) (n : ℤ) (h : q * 10 ^ k ≤ (n : ℚ)) :
    roundTo k q ≤ (n : ℚ) / 10 ^ k := by
  unfold roundTo
  have h1 : roundHE (q * 10 ^ k) ≤ n := roundHE_le _ _ h
  have h2 : ((roundHE (q * 10 ^ k) : ℚ)) ≤ (n : ℚ) := by exact_mod_cast h1
  gcongr

/-- Rounding a value that is already exact at `k` decimals. -/
theorem roundTo_exact (k : ℕ) (q : ℚ) (n : ℤ) (h : q * 10 ^ k = (n : ℚ)) :
    roundTo k q = (n : ℚ) / 10 ^ k := by
  unfold roundTo
  rw [h, roundHE_intCast]

/-! ### Helper lemmas: score lookup and argmax -/

/-- Lookup of the first dictionary key. -/
theorem scoreOf_mangrove (s : Scores) : scoreOf s "mangrove" = s.mangrove := rfl

/-- Lookup of the second dictionary key. -/
theorem scoreOf_cutting (s : Scores) : scoreOf s "cutting" = s.cutting := rfl

/-- Lookup of the third dictionary key. -/
theorem scoreOf_pollution (s : Scores) : scoreOf s "pollution" = s.pollution := rfl

/-- Lookup of the fourth dictionary key. -/
theorem scoreOf_encroachment (s : Scores) :
    scoreOf s "encroachment" = s.encroachment := rfl

/-- Index of the first class. -/
theorem classIdx_mangrove : classIdx "mangrove" = 0 := rfl

/-- Index of the second class. -/
theorem classIdx_cutting : classIdx "cutting" = 1 := rfl

/-- Index of the third class. -/
theorem classIdx_pollution : classIdx "pollution" = 2 := rfl

/-- Index of the fourth class. -/
theorem classIdx_encroachment : classIdx "encroachment" = 3 := rfl

/-- The selected class is one of the four enumerated classes. -/
theorem selectClass_mem (s : Scores) : selectClass s ∈ classOrder := by
  simp only [selectClass, maxEntry]
  split_ifs <;> simp [classOrder]

set_option maxHeartbeats 1000000 in
/-- The selected class has a maximal score. -/
theorem selectClass_is_max (s : Scores) :
    ∀ c ∈ classOrder, scoreOf s c ≤ scoreOf s (selectClass s) := by
  intro c hc
  fin_cases hc <;>
    · simp only [selectClass, maxEntry]
      split_ifs <;>
        simp_all only [scoreOf_mangrove, scoreOf_cutting, scoreOf_pollution,
          scoreOf_encroachment] <;>
        linarith

set_option maxHeartbeats 1000000 in
set_option linter.unusedTactic false in
/-- Any class listed strictly before the selected class has a strictly
smaller score: ties go to the earliest-enumerated class. -/
theorem selectClass_tiebreak (s : Scores) :
    ∀ c ∈ classOrder, classIdx c < classIdx (selectClass s) →
      scoreOf s c < scoreOf s (selectClass s) := by
  intro c hc
  fin_cases hc <;>
    · simp only [selectClass, maxEntry]
      split_ifs <;>
        simp_all only [scoreOf_mangrove, scoreOf_cutting, scoreOf_pollution,
          scoreOf_encroachment, classIdx_mangrove, classIdx_cutting,
          classIdx_pollution, classIdx_encroachment] <;>
        first
          | linarith
          | (intro hlt; linarith)
          | (intro hlt; exact absurd hlt (by omega))
          | exact fun hlt => trivial

set_option maxHeartbeats 1000000 in
/-- Closed form of the sequential score accumulation: each class score is
the sum of its independent additive rule contributions. -/
theorem computeScores_eq (fv : FeatureVector) :
    computeScores fv =
      { mangrove :=
          (if fv.greenRatio > 0.25 ∧ fv.blueRatio > 0.05 then
            0.4 + min 0.3 fv.greenRatio else 0)
          + (if fv.textureVariance > 500 then 0.2 else 0)
        cutting :=
          (if fv.brownRatio > 0.2 ∧ fv.greenRatio < 0.1 then
            0.4 + min 0.3 fv.brownRatio else 0)
          + (if fv.edgeDensity > 10 then 0.2 else 0)
        pollution :=
          (if fv.blueRatio > 0.4 then 0.4 + min 0.3 fv.blueRatio else 0)
          + (if fv.grayRatio > 0.3 then 0.2 else 0)
        encroachment :=
          (if fv.grayRatio > 0.3 then 0.2 else 0)
          + (if fv.textureVariance > 500 then 0
             else if fv.textureVariance < 100 then 0.3 else 0)
          + (if fv.edgeDensity > 10 then 0.2 else 0) } := by
  simp only [computeScores]
  split_ifs <;>
    simp only [Scores.mk.injEq] <;>
    exact ⟨by ring_nf, by ring_nf, by ring_nf, by ring_nf⟩

set_option maxHeartbeats 1000000 in
/-- Every class score is nonnegative: each rule only fires when its
threshold makes its contribution positive. -/
theorem scores_nonneg (fv : FeatureVector) :
    0 ≤ (computeScores fv).mangrove ∧ 0 ≤ (computeScores fv).cutting ∧
    0 ≤ (computeScores fv).pollution ∧ 0 ≤ (computeScores fv).encroachment := by
  rcases min_cases (0.3 : ℚ) fv.greenRatio with ⟨e1, l1⟩ | ⟨e1, l1⟩ <;>
  rcases min_cases (0.3 : ℚ) fv.brownRatio with ⟨e2, l2⟩ | ⟨e2, l2⟩ <;>
  rcases min_cases (0.3 : ℚ) fv.blueRatio with ⟨e3, l3⟩ | ⟨e3, l3⟩ <;>
  · rw [computeScores_eq]
    refine ⟨?_, ?_, ?_, ?_⟩ <;>
      · simp only [e1, e2, e3]
        split_ifs <;> (try casesm* _ ∧ _) <;> linarith

set_option maxHeartbeats 1000000 in
/-- Upper bounds of the class scores: the three color classes never
exceed 0.9, encroachment never exceeds 0.7. -/
theorem scores_le (fv : FeatureVector) :
    (computeScores fv).mangrove ≤ 0.9 ∧ (computeScores fv).cutting ≤ 0.9 ∧
    (computeScores fv).pollution ≤ 0.9 ∧ (computeScores fv).encroachment ≤ 0.7 := by
  rw [computeScores_eq]
  have hg : min (0.3 : ℚ) fv.greenRatio ≤ 0.3 := min_le_left _ _
  have hb : min (0.3 : ℚ) fv.brownRatio ≤ 0.3 := min_le_left _ _
  have hbl : min (0.3 : ℚ) fv.blueRatio ≤ 0.3 := min_le_left _ _
  refine ⟨?_, ?_, ?_, ?_⟩ <;>
    · simp only
      split_ifs <;> linarith

/-! ### Helper lemmas: uniform images -/

/-- Summing a constant over the grid gives `total * q`. -/
theorem sumPix_const (img : RasterImage) (q : ℚ) :
    sumPix img (fun _ _ => q) = (totalPixels img : ℚ) * q := by
  simp [sumPix, Finset.sum_const, totalPixels, nsmul_eq_mul]
  ring_nf

/-- The mean of a constant field is that constant. -/
theorem meanPix_const (img : RasterImage) (q : ℚ)
    (h : totalPixels img ≠ 0) : meanPix img (fun _ _ => q) = q := by
  rw [meanPix, sumPix_const]
  have h2 : ((totalPixels img : ℚ)) ≠ 0 := by exact_mod_cast h
  field_simp

/-- Mask count over a uniform image. -/
theorem maskCount_uniform (p : Pix) (h w : ℕ) (mask : Pix → Bool) :
    maskCount (uniformImg p h w) mask = h * w * (if mask p then 1 else 0) := by
  simp [maskCount, uniformImg, Finset.sum_const]
  split_ifs <;> simp [mul_comm]

/-- Luminance of a uniform image is constant. -/
theorem lumAt_uniform (p : Pix) (h w : ℕ) (i j : ℕ) :
    lumAt (uniformImg p h w) i j = lum p := rfl

/-- Pixel count of a uniform image. -/
theorem totalPixels_uniform (p : Pix) (h w : ℕ) :
    totalPixels (uniformImg p h w) = h * w := rfl

/-- Mean luminance of a uniform image. -/
theorem lumMean_uniform (p : Pix) (h w : ℕ) (hh : h ≠ 0) (hw : w ≠ 0) :
    lumMean (uniformImg p h w) = lum p := by
  have hl : lumAt (uniformImg p h w) = fun _ _ => lum p := rfl
  rw [lumMean, hl]
  have ht : totalPixels (uniformImg p h w) ≠ 0 := by
    simp [totalPixels_uniform, hh, hw]
  exact meanPix_const _ _ ht

/-- A uniform image has zero texture variance. -/
theorem texture_variance_uniform (p : Pix) (h w : ℕ) (hh : h ≠ 0) (hw : w ≠ 0) :
    texture_variance (uniformImg p h w) = 0 := by
  rw [texture_variance]
  have heq : ∀ i j : ℕ, (lumAt (uniformImg p h w) i j - lumMean (uniformImg p h w)) ^ 2 = 0 := by
    intro i j
    rw [lumAt_uniform, lumMean_uniform p h w hh hw]
    ring
  calc meanPix (uniformImg p h w)
        (fun i j => (lumAt (uniformImg p h w) i j - lumMean (uniformImg p h w)) ^ 2)
      = meanPix (uniformImg p h w) (fun _ _ => (0:ℚ)) := by
        unfold meanPix sumPix
        congr 1
        apply Finset.sum_congr rfl
        intro i _
        apply Finset.sum_congr rfl
        intro j _
        exact heq i j
    _ = 0 := by
        rw [meanPix, sumPix_const]
        simp

/-- A uniform image has zero horizontal gradient. -/
theorem gradX_uniform (p : Pix) (h w : ℕ) (i j : ℕ) :
    gradX (uniformImg p h w) i j = 0 := by
  unfold gradX
  split_ifs <;> simp [lumAt_uniform]

/-- A uniform image has zero vertical gradient. -/
theorem gradY_uniform (p : Pix) (h w : ℕ) (i j : ℕ) :
    gradY (uniformImg p h w) i j = 0 := by
  unfold gradY
  split_ifs <;> simp [lumAt_uniform]

/-- A uniform image has zero edge density. -/
theorem edge_density_uniform (p : Pix) (h w : ℕ) :
    edge_density (uniformImg p h w) = 0 := by
  rw [edge_density]
  calc meanPix (uniformImg p h w)
        (fun i j => |gradX (uniformImg p h w) i j| + |gradY (uniformImg p h w) i j|)
      = meanPix (uniformImg p h w) (fun _ _ => (0:ℚ)) := by
        unfold meanPix sumPix
        congr 1
        apply Finset.sum_congr rfl
        intro i _
        apply Finset.sum_congr rfl
        intro j _
        show |gradX (uniformImg p h w) i j| + |gradY (uniformImg p h w) i j| = 0
        rw [gradX_uniform, gradY_uniform]
        simp
    _ = 0 := by
        rw [meanPix, sumPix_const]
        simp

/-- Feature vector of a uniform `h` by `w` image: each color ratio is 0 or 1
according to its mask on the single pixel value, and texture and edges
vanish. -/
theorem extractFeatures_uniform (p : Pix) (h w : ℕ) (hh : h ≠ 0) (hw : w ≠ 0) :
    extractFeatures (uniformImg p h w) =
      { greenRatio := if green_mask p then 1 else 0
        brownRatio := if brown_mask p then 1 else 0
        blueRatio := if blue_mask p then 1 else 0
        grayRatio := if gray_mask p then 1 else 0
        averageBrightness := ((p.r + p.g + p.b : ℕ) : ℚ) / 3
        textureVariance := 0
        edgeDensity := 0
        width := w
        height := h } := by
  have htot : ((totalPixels (uniformImg p h w) : ℕ) : ℚ) ≠ 0 := by
    rw [totalPixels_uniform]
    push_cast
    simp [hh, hw]
  have hratio : ∀ mask : Pix → Bool,
      (maskCount (uniformImg p h w) mask : ℚ) / (totalPixels (uniformImg p h w) : ℚ)
        = if mask p then 1 else 0 := by
    intro mask
    rw [maskCount_uniform, totalPixels_uniform]
    have h1 : (h : ℚ) ≠ 0 := Nat.cast_ne_zero.mpr hh
    have h2 : (w : ℚ) ≠ 0 := Nat.cast_ne_zero.mpr hw
    split_ifs
    · push_cast
      field_simp
    · push_cast
      simp
  have hbr : (fun i j : ℕ =>
      ((((uniformImg p h w).pix i j).r + ((uniformImg p h w).pix i j).g +
        ((uniformImg p h w).pix i j).b : ℕ) : ℚ) / 3)
      = fun _ _ : ℕ => ((p.r + p.g + p.b : ℕ) : ℚ) / 3 := rfl
  have htot2 : totalPixels (uniformImg p h w) ≠ 0 := by
    rw [totalPixels_uniform]
    simp [hh, hw]
  unfold extractFeatures
  rw [FeatureVector.mk.injEq]
  refine ⟨hratio _, hratio _, hratio _, hratio _, ?_, ?_, ?_, rfl, rfl⟩
  · rw [hbr]
    exact meanPix_const _ _ htot2
  · exact texture_variance_uniform p h w hh hw
  · exact edge_density_uniform p h w

/-- The selected class is one of the four concrete class names. -/
theorem selectClass_cases (s : Scores) :
    selectClass s = "mangrove" ∨ selectClass s = "cutting" ∨
    selectClass s = "pollution" ∨ selectClass s = "encroachment" := by
  simpa [classOrder] using selectClass_mem s

/-- The winning score is nonnegative and at most 0.9. -/
theorem scoreOf_selectClass_bounds (fv : FeatureVector) :
    0 ≤ scoreOf (computeScores fv) (selectClass (computeScores fv))
    ∧ scoreOf (computeScores fv) (selectClass (computeScores fv)) ≤ 0.9 := by
  have hnn := scores_nonneg fv
  have hle := scores_le fv
  rcases selectClass_cases (computeScores fv) with h | h | h | h <;>
    rw [h]
  · exact ⟨hnn.1, hle.1⟩
  · rw [scoreOf_cutting]
    exact ⟨hnn.2.1, hle.2.1⟩
  · rw [scoreOf_pollution]
    exact ⟨hnn.2.2.1, hle.2.2.1⟩
  · rw [scoreOf_encroachment]
    refine ⟨hnn.2.2.2, ?_⟩
    have := hle.2.2.2
    linarith

/-- The 0.95 cap in `min(scores[primary_class], 0.95)` never truncates. -/
theorem rawConfidence_eq_winner (fv : FeatureVector) :
    rawConfidence (computeScores fv)
      = scoreOf (computeScores fv) (selectClass (computeScores fv)) := by
  apply min_eq_left
  have := (scoreOf_selectClass_bounds fv).2
  linarith

/-- The raw confidence lies in `[0, 0.9]`. -/
theorem rawConfidence_bounds (fv : FeatureVector) :
    0 ≤ rawConfidence (computeScores fv)
    ∧ rawConfidence (computeScores fv) ≤ 0.9 := by
  rw [rawConfidence_eq_winner]
  exact scoreOf_selectClass_bounds fv

/-- The final (post-fallback) confidence lies in `[0, 0.9]`. -/
theorem finalConfidence_bounds (fv : FeatureVector) :
    0 ≤ finalConfidence fv ∧ finalConfidence fv ≤ 0.9 := by
  unfold finalConfidence
  split_ifs with h
  · have h1 : (0 : ℚ) ≤ max 0 (min 0.2 fv.greenRatio) := le_max_left _ _
    have h2 : max (0 : ℚ) (min 0.2 fv.greenRatio) ≤ 0.2 :=
      max_le (by norm_num) (min_le_left _ _)
    constructor <;> linarith
  · exact rawConfidence_bounds fv

/-- In the fallback branch the recomputed confidence is at most 0.6. -/
theorem finalConfidence_of_unknown (fv : FeatureVector)
    (h : finalClass fv = "unknown") : finalConfidence fv ≤ 0.6 := by
  unfold finalClass at h
  unfold finalConfidence
  split_ifs with hc
  · have h2 : max (0 : ℚ) (min 0.2 fv.greenRatio) ≤ 0.2 :=
      max_le (by norm_num) (min_le_left _ _)
    linarith
  · rw [if_neg hc] at h
    rcases selectClass_cases (computeScores fv) with hs | hs | hs | hs <;>
      rw [hs] at h <;> simp at h

/-- The classifier never emits the sentinel class name. -/
theorem finalClass_ne_invalid (fv : FeatureVector) :
    finalClass fv ≠ "invalid" := by
  unfold finalClass
  split_ifs with h
  · simp
  · rcases selectClass_cases (computeScores fv) with hs | hs | hs | hs <;>
      rw [hs] <;> simp

/-! ### Helper lemmas: concrete evaluations -/

/-- On an image with at least two rows and columns, the analysis succeeds
and its fields come from the classification engine. -/
theorem analyze_of_big (img : RasterImage) (h2h : 2 ≤ img.h) (h2w : 2 ≤ img.w) :
    (analyze_image_heuristic img).className = finalClass (extractFeatures img)
    ∧ (analyze_image_heuristic img).confidence
        = roundTo 3 (finalConfidence (extractFeatures img))
    ∧ (analyze_image_heuristic img).model = "python-heuristic-v2" := by
  unfold analyze_image_heuristic
  rw [if_neg (by omega)]
  exact ⟨rfl, rfl, rfl⟩

/-- Features of the uniform pure-green 100 by 100 image. -/
theorem extractFeatures_pureGreen :
    extractFeatures (uniformImg ⟨0, 255, 0⟩ 100 100) = ⟨1, 0, 0, 0, 85, 0, 0, 100, 100⟩ := by
  rw [extractFeatures_uniform _ _ _ (by norm_num) (by norm_num)]
  norm_num [green_mask, brown_mask, blue_mask, gray_mask]

/-- Scores of the pure-green feature vector: only the low-texture rule
fires (blueRatio is 0, so rule 1 does not). -/
theorem computeScores_pureGreen :
    computeScores (⟨1, 0, 0, 0, 85, 0, 0, 100, 100⟩ : FeatureVector)
      = ⟨0, 0, 0, 0.3⟩ := by
  rw [computeScores_eq]
  norm_num

/-- Argmax of the score map `(0, 0, 0, 0.3)`. -/
theorem selectClass_e : selectClass ⟨0, 0, 0, (0.3 : ℚ)⟩ = "encroachment" := by
  norm_num [selectClass, maxEntry]

/-- Raw confidence of the score map `(0, 0, 0, 0.3)`. -/
theorem rawConfidence_e : rawConfidence ⟨0, 0, 0, (0.3 : ℚ)⟩ = 0.3 := by
  rw [rawConfidence, selectClass_e, scoreOf_encroachment]
  norm_num [min_def]

/-- Final class of the pure-green feature vector. -/
theorem finalClass_pureGreen :
    finalClass (⟨1, 0, 0, 0, 85, 0, 0, 100, 100⟩ : FeatureVector)
      = "encroachment" := by
  unfold finalClass
  rw [computeScores_pureGreen, rawConfidence_e, if_neg (by norm_num), selectClass_e]

/-- Final confidence of the pure-green feature vector. -/
theorem finalConfidence_pureGreen :
    finalConfidence (⟨1, 0, 0, 0, 85, 0, 0, 100, 100⟩ : FeatureVector) = 0.3 := by
  unfold finalConfidence
  rw [computeScores_pureGreen, rawConfidence_e, if_neg (by norm_num)]

/-- `round(0.3, 3) = 0.3`. -/
theorem roundTo3_03 : roundTo 3 (0.3 : ℚ) = 0.3 := by
  rw [roundTo_exact 3 (0.3 : ℚ) 300 (by norm_num)]
  norm_num

/-- Equal channels never satisfy the green mask. -/
theorem green_mask_equal (v : ℕ) : green_mask ⟨v, v, v⟩ = false := by
  simp [green_mask]

/-- Equal channels never satisfy the brown mask. -/
theorem brown_mask_equal (v : ℕ) : brown_mask ⟨v, v, v⟩ = false := by
  simp [brown_mask]

/-- Equal channels never satisfy the blue mask. -/
theorem blue_mask_equal (v : ℕ) : blue_mask ⟨v, v, v⟩ = false := by
  simp [blue_mask]

/-- Equal channels always satisfy the gray mask. -/
theorem gray_mask_equal (v : ℕ) : gray_mask ⟨v, v, v⟩ = true := by
  simp [gray_mask]

/-- Features of a uniform gray image, any gray level `v`. -/
theorem extractFeatures_grayUniform (v h w : ℕ) (hh : h ≠ 0) (hw : w ≠ 0) :
    extractFeatures (uniformImg ⟨v, v, v⟩ h w)
      = ⟨0, 0, 0, 1, (v : ℚ), 0, 0, w, h⟩ := by
  rw [extractFeatures_uniform _ _ _ hh hw]
  rw [green_mask_equal, brown_mask_equal, blue_mask_equal, gray_mask_equal]
  norm_num
  ring

/-- Scores of the uniform-gray feature vector: the gray-ratio rule and
the low-texture rule fire. -/
theorem computeScores_grayUniform (bright : ℚ) (W H : ℕ) :
    computeScores (⟨0, 0, 0, 1, bright, 0, 0, W, H⟩ : FeatureVector)
      = ⟨0, 0, 0.2, 0.5⟩ := by
  rw [computeScores_eq]
  norm_num

/-- Argmax of the score map `(0, 0, 0.2, 0.5)`. -/
theorem selectClass_grayScores : selectClass ⟨0, 0, 0.2, (0.5 : ℚ)⟩ = "encroachment" := by
  norm_num [selectClass, maxEntry]

/-- Raw confidence of the score map `(0, 0, 0.2, 0.5)`. -/
theorem rawConfidence_grayScores : rawConfidence ⟨0, 0, 0.2, (0.5 : ℚ)⟩ = 0.5 := by
  rw [rawConfidence, selectClass_grayScores, scoreOf_encroachment]
  norm_num [min_def]

/-- Final class of the uniform-gray feature vector. -/
theorem finalClass_grayUniform (bright : ℚ) (W H : ℕ) :
    finalClass (⟨0, 0, 0, 1, bright, 0, 0, W, H⟩ : FeatureVector)
      = "encroachment" := by
  unfold finalClass
  rw [computeScores_grayUniform, rawConfidence_grayScores, if_neg (by norm_num),
    selectClass_grayScores]

/-- Final confidence of the uniform-gray feature vector. -/
theorem finalConfidence_grayUniform (bright : ℚ) (W H : ℕ) :
    finalConfidence (⟨0, 0, 0, 1, bright, 0, 0, W, H⟩ : FeatureVector) = 0.5 := by
  unfold finalConfidence
  rw [computeScores_grayUniform, rawConfidence_grayScores, if_neg (by norm_num)]

/-- Scores of the all-zero feature vector: only the low-texture rule fires. -/
theorem computeScores_fvZero :
    computeScores (⟨0, 0, 0, 0, 0, 0, 0, 0, 0⟩ : FeatureVector) = ⟨0, 0, 0, 0.3⟩ := by
  rw [computeScores_eq]
  norm_num

/-- Scores of a featureless vector with mid-range texture: nothing fires. -/
theorem computeScores_fvUnk :
    computeScores (⟨0, 0, 0, 0, 0, 200, 0, 0, 0⟩ : FeatureVector) = ⟨0, 0, 0, 0⟩ := by
  rw [computeScores_eq]
  norm_num

/-- Argmax of the all-zero score map: the first key wins the tie. -/
theorem selectClass_zeroScores : selectClass ⟨0, 0, 0, (0 : ℚ)⟩ = "mangrove" := by
  norm_num [selectClass, maxEntry]

/-- Raw confidence of the all-zero score map. -/
theorem rawConfidence_zeroScores : rawConfidence ⟨0, 0, 0, (0 : ℚ)⟩ = 0 := by
  rw [rawConfidence, selectClass_zeroScores, scoreOf_mangrove]
  norm_num [min_def]

/-- The all-low score map falls back to the unknown class. -/
theorem finalClass_fvUnk :
    finalClass (⟨0, 0, 0, 0, 0, 200, 0, 0, 0⟩ : FeatureVector) = "unknown" := by
  unfold finalClass
  rw [computeScores_fvUnk, rawConfidence_zeroScores, if_pos (by norm_num)]

/-- Fallback confidence for a zero green ratio. -/
theorem finalConfidence_fvUnk :
    finalConfidence (⟨0, 0, 0, 0, 0, 200, 0, 0, 0⟩ : FeatureVector) = 0.4 := by
  unfold finalConfidence
  rw [computeScores_fvUnk, rawConfidence_zeroScores, if_pos (by norm_num)]
  norm_num

/-- The prediction built for a missing path: note the `model` field keeps
its default value, the constructor call passes only class, confidence and
details. -/
theorem processPath_missing (p : String) :
    processPath (PathOutcome.missing p) =
      { className := "invalid"
        confidence := 0
        details := PredDetails.err ("File not found: " ++ p) } := rfl

/-- The prediction built by the `except` branch for a decode failure. -/
theorem processPath_decodeError (m : String) :
    processPath (PathOutcome.decodeError m) =
      { className := "invalid"
        confidence := 0
        model := "python-heuristic-v2"
        details := PredDetails.err m } := rfl

/-- An existing, decodable path goes through the heuristic analysis. -/
theorem processPath_image (img : RasterImage) :
    processPath (PathOutcome.image img) = analyze_image_heuristic img := rfl

/-- An image too small for `np.gradient` yields the `invalid` prediction. -/
theorem analyze_small (img : RasterImage) (h : img.h < 2 ∨ img.w < 2) :
    (analyze_image_heuristic img).className = "invalid"
    ∧ (analyze_image_heuristic img).confidence = 0 := by
  unfold analyze_image_heuristic
  rw [if_pos h]
  exact ⟨rfl, rfl⟩

/-- Confidence facts common to every per-path prediction: nonnegative,
at most 0.9, zero when invalid, at most 0.6 when unknown. -/
theorem processPath_conf_facts (po : PathOutcome) :
    0 ≤ (processPath po).confidence ∧ (processPath po).confidence ≤ 0.9
    ∧ ((processPath po).className = "invalid" → (processPath po).confidence = 0)
    ∧ ((processPath po).className = "unknown" → (processPath po).confidence ≤ 0.6) := by
  have hinv : ("invalid" : String) ≠ "unknown" := by decide
  cases po with
  | missing p =>
      rw [processPath_missing]
      exact ⟨le_refl 0, by norm_num, fun _ => rfl, fun h => absurd h hinv⟩
  | decodeError m =>
      rw [processPath_decodeError]
      exact ⟨le_refl 0, by norm_num, fun _ => rfl, fun h => absurd h hinv⟩
  | image img =>
      rw [processPath_image]
      by_cases hsmall : img.h < 2 ∨ img.w < 2
      · obtain ⟨hc, hf⟩ := analyze_small img hsmall
        rw [hc, hf]
        exact ⟨le_refl 0, by norm_num, fun _ => rfl, fun h => absurd h hinv⟩
      · push_neg at hsmall
        obtain ⟨hc, hf, -⟩ := analyze_of_big img hsmall.1 hsmall.2
        rw [hc, hf]
        refine ⟨roundTo_nonneg _ _ (finalConfidence_bounds _).1, ?_,
          fun h => absurd h (finalClass_ne_invalid _), fun h => ?_⟩
        · have h9 := (finalConfidence_bounds (extractFeatures img)).2
          have hb := roundTo_le 3 (finalConfidence (extractFeatures img)) 900
            (by push_cast; linarith)
          calc roundTo 3 (finalConfidence (extractFeatures img))
              ≤ ((900 : ℤ) : ℚ) / 10 ^ 3 := hb
            _ = 0.9 := by norm_num
        · have h6 := finalConfidence_of_unknown _ h
          have hb := roundTo_le 3 (finalConfidence (extractFeatures img)) 600
            (by push_cast; linarith)
          calc roundTo 3 (finalConfidence (extractFeatures img))
              ≤ ((600 : ℤ) : ℚ) / 10 ^ 3 := hb
            _ = 0.6 := by norm_num

/-- C1: the four class scores are produced by exactly the six additive
rules, each applied independently; rule 5's encroachment contribution
fires only when the high-texture branch did not; no other contribution
exists. -/
theorem C1_additive_scoring_rules (fv : FeatureVector) :
    computeScores fv =
      { mangrove :=
          (if fv.greenRatio > 0.25 ∧ fv.blueRatio > 0.05 then
            0.4 + min 0.3 fv.greenRatio else 0)
          + (if fv.textureVariance > 500 then 0.2 else 0)
        cutting :=
          (if fv.brownRatio > 0.2 ∧ fv.greenRatio < 0.1 then
            0.4 + min 0.3 fv.brownRatio else 0)
          + (if fv.edgeDensity > 10 then 0.2 else 0)
        pollution :=
          (if fv.blueRatio > 0.4 then 0.4 + min 0.3 fv.blueRatio else 0)
          + (if fv.grayRatio > 0.3 then 0.2 else 0)
        encroachment :=
          (if fv.grayRatio > 0.3 then 0.2 else 0)
          + (if fv.textureVariance > 500 then 0
             else if fv.textureVariance < 100 then 0.3 else 0)
          + (if fv.edgeDensity > 10 then 0.2 else 0) } :=
  computeScores_eq fv

/-- C2: the selected class is the argmax over the four scores in the fixed
enumeration order with ties to the earliest class, the pre-fallback
confidence is `min(winning score, 0.95)`, and a confidence below 0.3 is
overridden to `unknown` with confidence `0.4 + clamp(greenRatio, 0, 0.2)`. -/
theorem C2_argmax_selection_and_fallback (fv : FeatureVector) :
    selectClass (computeScores fv) ∈ classOrder
    ∧ (∀ c ∈ classOrder,
        scoreOf (computeScores fv) c
          ≤ scoreOf (computeScores fv) (selectClass (computeScores fv)))
    ∧ (∀ c ∈ classOrder,
        classIdx c < classIdx (selectClass (computeScores fv)) →
          scoreOf (computeScores fv) c
            < scoreOf (computeScores fv) (selectClass (computeScores fv)))
    ∧ rawConfidence (computeScores fv)
        = min (scoreOf (computeScores fv) (selectClass (computeScores fv))) 0.95
    ∧ (rawConfidence (computeScores fv) < 0.3 →
        finalClass fv = "unknown"
          ∧ finalConfidence fv = 0.4 + max 0 (min 0.2 fv.greenRatio))
    ∧ (¬ rawConfidence (computeScores fv) < 0.3 →
        finalClass fv = selectClass (computeScores fv)
          ∧ finalConfidence fv = rawConfidence (computeScores fv)) :=
  ⟨selectClass_mem _, selectClass_is_max _, selectClass_tiebreak _, rfl,
   fun h => ⟨by rw [finalClass, if_pos h], by rw [finalConfidence, if_pos h]⟩,
   fun h => ⟨by rw [finalClass, if_neg h], by rw [finalConfidence, if_neg h]⟩⟩

/-- Witness for C2 at the all-zero feature vector: its raw confidence is
exactly 0.3, so the fallback does not trigger and the selected class and
raw confidence pass through. -/
theorem C2_argmax_selection_and_fallback_witness :
    ¬ rawConfidence (computeScores (⟨0, 0, 0, 0, 0, 0, 0, 0, 0⟩ : FeatureVector)) < 0.3
    ∧ (finalClass (⟨0, 0, 0, 0, 0, 0, 0, 0, 0⟩ : FeatureVector)
         = selectClass (computeScores (⟨0, 0, 0, 0, 0, 0, 0, 0, 0⟩ : FeatureVector))
       ∧ finalConfidence (⟨0, 0, 0, 0, 0, 0, 0, 0, 0⟩ : FeatureVector)
         = rawConfidence (computeScores (⟨0, 0, 0, 0, 0, 0, 0, 0, 0⟩ : FeatureVector))) := by
  have h : ¬ rawConfidence (computeScores (⟨0, 0, 0, 0, 0, 0, 0, 0, 0⟩ : FeatureVector)) < 0.3 := by
    rw [computeScores_fvZero, rawConfidence_e]
    norm_num
  exact ⟨h, (C2_argmax_selection_and_fallback ⟨0, 0, 0, 0, 0, 0, 0, 0, 0⟩).2.2.2.2.2 h⟩

/-- Counterexample to C3: the uniformly pure-green 100 by 100 image has
blueRatio 0, not greater than 0.05, so rule 1 does not fire; the image is
not classified `mangrove` and its confidence is below 0.4. -/
theorem C3_counterexample :
    (extractFeatures (uniformImg ⟨0, 255, 0⟩ 100 100)).blueRatio = 0
    ∧ (analyze_image_heuristic (uniformImg ⟨0, 255, 0⟩ 100 100)).className ≠ "mangrove"
    ∧ (analyze_image_heuristic (uniformImg ⟨0, 255, 0⟩ 100 100)).confidence < 0.4 := by
  obtain ⟨hc, hf, -⟩ :=
    analyze_of_big (uniformImg ⟨0, 255, 0⟩ 100 100) (by decide) (by decide)
  rw [hc, hf, extractFeatures_pureGreen, finalClass_pureGreen,
    finalConfidence_pureGreen, roundTo3_03]
  refine ⟨rfl, by decide, by norm_num⟩

/-- C3 amended: the uniformly pure-green 100 by 100 image has
greenRatio 1 but blueRatio 0, so rule 1 does not fire; only the
low-texture rule does, and the image classifies as `encroachment` with
confidence exactly 0.3. -/
theorem C3_amended_uniform_green :
    (extractFeatures (uniformImg ⟨0, 255, 0⟩ 100 100)).greenRatio = 1
    ∧ (extractFeatures (uniformImg ⟨0, 255, 0⟩ 100 100)).blueRatio = 0
    ∧ (analyze_image_heuristic (uniformImg ⟨0, 255, 0⟩ 100 100)).className
        = "encroachment"
    ∧ (analyze_image_heuristic (uniformImg ⟨0, 255, 0⟩ 100 100)).confidence = 0.3 := by
  obtain ⟨hc, hf, -⟩ :=
    analyze_of_big (uniformImg ⟨0, 255, 0⟩ 100 100) (by decide) (by decide)
  rw [hc, hf, extractFeatures_pureGreen, finalClass_pureGreen,
    finalConfidence_pureGreen, roundTo3_03]
  exact ⟨rfl, rfl, rfl, rfl⟩

/-- C4: the computed confidence lies in `[0, 0.95]` before rounding,
rounding to 3 decimals keeps it there, every successful prediction's
confidence is in `[0, 0.95]`, and every invalid prediction's confidence
is exactly 0. -/
theorem C4_confidence_range (fv : FeatureVector) (po : PathOutcome) :
    (0 ≤ rawConfidence (computeScores fv) ∧ rawConfidence (computeScores fv) ≤ 0.95)
    ∧ (0 ≤ finalConfidence fv ∧ finalConfidence fv ≤ 0.95)
    ∧ (0 ≤ roundTo 3 (finalConfidence fv) ∧ roundTo 3 (finalConfidence fv) ≤ 0.95)
    ∧ ((processPath po).className ≠ "invalid" →
        0 ≤ (processPath po).confidence ∧ (processPath po).confidence ≤ 0.95)
    ∧ ((processPath po).className = "invalid" → (processPath po).confidence = 0) := by
  obtain ⟨hr0, hr9⟩ := rawConfidence_bounds fv
  obtain ⟨hf0, hf9⟩ := finalConfidence_bounds fv
  obtain ⟨hp0, hp9, hpinv, -⟩ := processPath_conf_facts po
  refine ⟨⟨hr0, by linarith⟩, ⟨hf0, by linarith⟩,
    ⟨roundTo_nonneg _ _ hf0, ?_⟩, fun _ => ⟨hp0, by linarith⟩, hpinv⟩
  have hb := roundTo_le 3 (finalConfidence fv) 950 (by push_cast; linarith)
  calc roundTo 3 (finalConfidence fv) ≤ ((950 : ℤ) : ℚ) / 10 ^ 3 := hb
    _ = 0.95 := by norm_num

/-- Witness for C4: the pure-green image yields a successful
(`encroachment`) prediction with confidence in range, and a missing path
yields an invalid prediction with confidence exactly 0. -/
theorem C4_confidence_range_witness :
    ((processPath (PathOutcome.image (uniformImg ⟨0, 255, 0⟩ 100 100))).className
        ≠ "invalid"
      ∧ 0 ≤ (processPath (PathOutcome.image (uniformImg ⟨0, 255, 0⟩ 100 100))).confidence
      ∧ (processPath (PathOutcome.image (uniformImg ⟨0, 255, 0⟩ 100 100))).confidence
          ≤ 0.95)
    ∧ ((processPath (PathOutcome.missing "gone.png")).className = "invalid"
      ∧ (processPath (PathOutcome.missing "gone.png")).confidence = 0) := by
  have hcn : (processPath (PathOutcome.image (uniformImg ⟨0, 255, 0⟩ 100 100))).className
      = "encroachment" := by
    rw [processPath_image,
      (analyze_of_big (uniformImg ⟨0, 255, 0⟩ 100 100) (by decide) (by decide)).1,
      extractFeatures_pureGreen, finalClass_pureGreen]
  have hne : (processPath (PathOutcome.image (uniformImg ⟨0, 255, 0⟩ 100 100))).className
      ≠ "invalid" := by
    rw [hcn]
    decide
  have hinv : (processPath (PathOutcome.missing "gone.png")).className = "invalid" := rfl
  obtain ⟨h1, h2⟩ :=
    (C4_confidence_range ⟨0, 0, 0, 0, 0, 0, 0, 0, 0⟩
      (PathOutcome.image (uniformImg ⟨0, 255, 0⟩ 100 100))).2.2.2.1 hne
  exact ⟨⟨hne, h1, h2⟩, hinv,
    (C4_confidence_range ⟨0, 0, 0, 0, 0, 0, 0, 0, 0⟩
      (PathOutcome.missing "gone.png")).2.2.2.2 hinv⟩

/-- C9: a uniformly gray 100 by 100 image (any gray level, all channels
equal) accumulates nonzero pollution and encroachment scores and never
classifies as `mangrove`. -/
theorem C9_uniform_gray_never_mangrove (v : ℕ) :
    (computeScores (extractFeatures (uniformImg ⟨v, v, v⟩ 100 100))).pollution ≠ 0
    ∧ (computeScores (extractFeatures (uniformImg ⟨v, v, v⟩ 100 100))).encroachment ≠ 0
    ∧ (analyze_image_heuristic (uniformImg ⟨v, v, v⟩ 100 100)).className
        ≠ "mangrove" := by
  obtain ⟨hc, -, -⟩ :=
    analyze_of_big (uniformImg ⟨v, v, v⟩ 100 100) (by norm_num [uniformImg])
      (by norm_num [uniformImg])
  rw [hc, extractFeatures_grayUniform v 100 100 (by norm_num) (by norm_num),
    computeScores_grayUniform, finalClass_grayUniform]
  refine ⟨by norm_num, by norm_num, by decide⟩

/-- C10: every class score is at most 0.9 (encroachment even at most
0.7), the 0.95 cap never truncates the winning score, every successful
prediction's confidence is at most 0.9, and at most 0.6 when the class
is `unknown`. -/
theorem C10_cap_never_truncates (fv : FeatureVector) (po : PathOutcome) :
    (computeScores fv).mangrove ≤ 0.9 ∧ (computeScores fv).cutting ≤ 0.9
    ∧ (computeScores fv).pollution ≤ 0.9 ∧ (computeScores fv).encroachment ≤ 0.7
    ∧ min (scoreOf (computeScores fv) (selectClass (computeScores fv))) 0.95
        = scoreOf (computeScores fv) (selectClass (computeScores fv))
    ∧ finalConfidence fv ≤ 0.9
    ∧ (finalClass fv = "unknown" → finalConfidence fv ≤ 0.6)
    ∧ ((processPath po).className ≠ "invalid" → (processPath po).confidence ≤ 0.9)
    ∧ ((processPath po).className = "unknown" → (processPath po).confidence ≤ 0.6) := by
  obtain ⟨h1, h2, h3, h4⟩ := scores_le fv
  obtain ⟨-, hp9, -, hpu⟩ := processPath_conf_facts po
  exact ⟨h1, h2, h3, h4, rawConfidence_eq_winner fv, (finalConfidence_bounds fv).2,
    finalConfidence_of_unknown fv, fun _ => hp9, hpu⟩

/-- Witness for C10: a feature vector with mid-range texture variance
triggers the unknown fallback with confidence 0.4, and the pure-green
image gives a successful prediction with confidence at most 0.9. -/
theorem C10_cap_never_truncates_witness :
    (finalClass (⟨0, 0, 0, 0, 0, 200, 0, 0, 0⟩ : FeatureVector) = "unknown"
      ∧ finalConfidence (⟨0, 0, 0, 0, 0, 200, 0, 0, 0⟩ : FeatureVector) ≤ 0.6)
    ∧ ((processPath (PathOutcome.image (uniformImg ⟨0, 255, 0⟩ 100 100))).className
          ≠ "invalid"
      ∧ (processPath (PathOutcome.image (uniformImg ⟨0, 255, 0⟩ 100 100))).confidence
          ≤ 0.9) := by
  have hunk : finalClass (⟨0, 0, 0, 0, 0, 200, 0, 0, 0⟩ : FeatureVector) = "unknown" :=
    finalClass_fvUnk
  have hne : (processPath (PathOutcome.image (uniformImg ⟨0, 255, 0⟩ 100 100))).className
      ≠ "invalid" := by
    rw [processPath_image,
      (analyze_of_big (uniformImg ⟨0, 255, 0⟩ 100 100) (by decide) (by decide)).1,
      extractFeatures_pureGreen, finalClass_pureGreen]
    decide
  exact ⟨⟨hunk,
      (C10_cap_never_truncates ⟨0, 0, 0, 0, 0, 200, 0, 0, 0⟩
        (PathOutcome.missing "x")).2.2.2.2.2.2.1 hunk⟩,
    ⟨hne,
      (C10_cap_never_truncates ⟨0, 0, 0, 0, 0, 200, 0, 0, 0⟩
        (PathOutcome.image (uniformImg ⟨0, 255, 0⟩ 100 100))).2.2.2.2.2.2.2.1 hne⟩⟩

/-- On an initialized service and a nonempty path list, `/classify`
returns the aggregated batch response. -/
theorem classify_images_ok (paths : List PathOutcome) (hne : paths ≠ []) :
    classify_images true paths = Except.ok
      { predictions := paths.map processPath
        averageConfidence := roundTo 3 (batchAvg paths)
        primaryClass := primaryOf (countClasses (validPreds paths))
        isValid := decide (batchAvg paths > 0.6)
        totalImages := paths.length
        validImages := (validPreds paths).length } := by
  unfold classify_images
  rw [if_neg (by simp), if_neg (by simpa [List.isEmpty_iff] using hne)]

/-- C7: a request while models are not loaded, or with an empty path
list, is rejected as a request-level error (HTTP 503 / 400) and no batch
response is produced. -/
theorem C7_request_level_rejection :
    (∀ paths : List PathOutcome,
      classify_images false paths = Except.error ServiceError.notInitialized)
    ∧ classify_images true ([] : List PathOutcome)
        = Except.error ServiceError.noPaths := by
  constructor
  · intro paths
    unfold classify_images
    rw [if_pos (by simp)]
  · unfold classify_images
    rw [if_neg (by simp), if_pos (by simp)]

/-- Counterexample to C8: the missing-path prediction and the
decode-failure prediction differ in the `model` field as well
(`python-heuristic-v1` default versus explicit `python-heuristic-v2`). -/
theorem C8_counterexample :
    (processPath (PathOutcome.missing "/tmp/img.png")).model
      ≠ (processPath (PathOutcome.decodeError "cannot identify image file")).model := by
  rw [processPath_missing, processPath_decodeError]
  decide

/-- C8 amended: the two invalid predictions agree on className,
confidence and timestamp, but differ both in the error message text and
in the model field, which keeps its `python-heuristic-v1` default in the
missing-path branch and is `python-heuristic-v2` in the decode-failure
branch. -/
theorem C8_amended (p m : String) :
    (processPath (PathOutcome.missing p)).className
        = (processPath (PathOutcome.decodeError m)).className
    ∧ (processPath (PathOutcome.missing p)).confidence
        = (processPath (PathOutcome.decodeError m)).confidence
    ∧ (processPath (PathOutcome.missing p)).timestamp
        = (processPath (PathOutcome.decodeError m)).timestamp
    ∧ (processPath (PathOutcome.missing p)).model = "python-heuristic-v1"
    ∧ (processPath (PathOutcome.decodeError m)).model = "python-heuristic-v2"
    ∧ (processPath (PathOutcome.missing p)).details
        = PredDetails.err ("File not found: " ++ p)
    ∧ (processPath (PathOutcome.decodeError m)).details = PredDetails.err m :=
  ⟨rfl, rfl, rfl, rfl, rfl, rfl, rfl⟩

/-- C5: every accepted batch returns one prediction per input path in
input order (`totalImages` entries), and every per-image failure is
recovered locally into an `invalid` prediction with confidence 0 and an
error message in details. -/
theorem C5_per_image_recovery (paths : List PathOutcome) (hne : paths ≠ []) :
    (∃ resp, classify_images true paths = Except.ok resp
      ∧ resp.predictions = paths.map processPath
      ∧ resp.predictions.length = paths.length
      ∧ resp.totalImages = paths.length)
    ∧ ∀ po : PathOutcome,
        ((∃ p, po = PathOutcome.missing p) ∨ (∃ m, po = PathOutcome.decodeError m)) →
          (processPath po).className = "invalid"
          ∧ (processPath po).confidence = 0
          ∧ ∃ msg, (processPath po).details = PredDetails.err msg := by
  constructor
  · exact ⟨_, classify_images_ok paths hne, rfl, by simp, rfl⟩
  · rintro po (⟨p, rfl⟩ | ⟨m, rfl⟩)
    · exact ⟨rfl, rfl, _, rfl⟩
    · exact ⟨rfl, rfl, _, rfl⟩

/-- Witness for C5 on the one-element batch of a missing path. -/
theorem C5_per_image_recovery_witness :
    ([PathOutcome.missing "missing.png"] ≠ ([] : List PathOutcome))
    ∧ (∃ resp,
        classify_images true [PathOutcome.missing "missing.png"] = Except.ok resp
        ∧ resp.predictions = [PathOutcome.missing "missing.png"].map processPath
        ∧ resp.predictions.length = 1
        ∧ resp.totalImages = 1)
    ∧ ((processPath (PathOutcome.missing "missing.png")).className = "invalid"
      ∧ (processPath (PathOutcome.missing "missing.png")).confidence = 0
      ∧ ∃ msg, (processPath (PathOutcome.missing "missing.png")).details
          = PredDetails.err msg) := by
  have hne : [PathOutcome.missing "missing.png"] ≠ ([] : List PathOutcome) := by simp
  obtain ⟨h1, h2⟩ := C5_per_image_recovery [PathOutcome.missing "missing.png"] hne
  exact ⟨hne, h1, h2 _ (Or.inl ⟨_, rfl⟩)⟩

/-- Masks of a pure blue pixel. -/
theorem masks_pureBlue :
    green_mask ⟨0, 0, 255⟩ = false ∧ brown_mask ⟨0, 0, 255⟩ = false
    ∧ blue_mask ⟨0, 0, 255⟩ = true ∧ gray_mask ⟨0, 0, 255⟩ = false := by
  refine ⟨?_, ?_, ?_, ?_⟩ <;> decide

/-- Features of the uniform pure-blue 2 by 2 image. -/
theorem extractFeatures_blue2 :
    extractFeatures (uniformImg ⟨0, 0, 255⟩ 2 2) = ⟨0, 0, 1, 0, 85, 0, 0, 2, 2⟩ := by
  rw [extractFeatures_uniform _ _ _ (by norm_num) (by norm_num), masks_pureBlue.1,
    masks_pureBlue.2.1, masks_pureBlue.2.2.1, masks_pureBlue.2.2.2]
  norm_num

/-- Scores of the pure-blue feature vector: the blue-ratio rule and the
low-texture rule fire. -/
theorem computeScores_blue2 :
    computeScores (⟨0, 0, 1, 0, 85, 0, 0, 2, 2⟩ : FeatureVector)
      = ⟨0, 0, 0.7, 0.3⟩ := by
  rw [computeScores_eq]
  norm_num [min_def]

/-- Argmax of the score map `(0, 0, 0.7, 0.3)`. -/
theorem selectClass_blueScores : selectClass ⟨0, 0, 0.7, (0.3 : ℚ)⟩ = "pollution" := by
  norm_num [selectClass, maxEntry]

/-- Raw confidence of the score map `(0, 0, 0.7, 0.3)`. -/
theorem rawConfidence_blueScores : rawConfidence ⟨0, 0, 0.7, (0.3 : ℚ)⟩ = 0.7 := by
  rw [rawConfidence, selectClass_blueScores, scoreOf_pollution]
  norm_num [min_def]

/-- Final class of the pure-blue feature vector. -/
theorem finalClass_blue2 :
    finalClass (⟨0, 0, 1, 0, 85, 0, 0, 2, 2⟩ : FeatureVector) = "pollution" := by
  unfold finalClass
  rw [computeScores_blue2, rawConfidence_blueScores, if_neg (by norm_num),
    selectClass_blueScores]

/-- Final confidence of the pure-blue feature vector. -/
theorem finalConfidence_blue2 :
    finalConfidence (⟨0, 0, 1, 0, 85, 0, 0, 2, 2⟩ : FeatureVector) = 0.7 := by
  unfold finalConfidence
  rw [computeScores_blue2, rawConfidence_blueScores, if_neg (by norm_num)]

/-- The prediction for the uniform gray 2 by 2 image: class
`encroachment`, confidence 0.5. -/
theorem pred_gray2 :
    (processPath (PathOutcome.image (uniformImg ⟨128, 128, 128⟩ 2 2))).className
        = "encroachment"
    ∧ (processPath (PathOutcome.image (uniformImg ⟨128, 128, 128⟩ 2 2))).confidence
        = 0.5 := by
  rw [processPath_image]
  obtain ⟨hc, hf, -⟩ := analyze_of_big (uniformImg ⟨128, 128, 128⟩ 2 2)
    (by decide) (by decide)
  rw [hc, hf, extractFeatures_grayUniform 128 2 2 (by norm_num) (by norm_num),
    finalClass_grayUniform, finalConfidence_grayUniform]
  refine ⟨rfl, ?_⟩
  rw [roundTo_exact 3 (0.5 : ℚ) 500 (by norm_num)]
  norm_num

/-- The prediction for the uniform blue 2 by 2 image: class `pollution`,
confidence 0.7. -/
theorem pred_blue2 :
    (processPath (PathOutcome.image (uniformImg ⟨0, 0, 255⟩ 2 2))).className
        = "pollution"
    ∧ (processPath (PathOutcome.image (uniformImg ⟨0, 0, 255⟩ 2 2))).confidence
        = 0.7 := by
  rw [processPath_image]
  obtain ⟨hc, hf, -⟩ := analyze_of_big (uniformImg ⟨0, 0, 255⟩ 2 2)
    (by decide) (by decide)
  rw [hc, hf, extractFeatures_blue2, finalClass_blue2, finalConfidence_blue2]
  refine ⟨rfl, ?_⟩
  rw [roundTo_exact 3 (0.7 : ℚ) 700 (by norm_num)]
  norm_num

/-- Unwrapping a successful batch response. -/
theorem getResp_ok (r : BatchResponse) : getResp (Except.ok r) = r := rfl

/-- The valid predictions of the 201-image gray/blue batch: every image
analyzes successfully, so nothing is filtered out. -/
theorem validPreds_bigBatch :
    validPreds (List.replicate 100 (PathOutcome.image (uniformImg ⟨128, 128, 128⟩ 2 2))
        ++ List.replicate 101 (PathOutcome.image (uniformImg ⟨0, 0, 255⟩ 2 2)))
      = List.replicate 100
          (processPath (PathOutcome.image (uniformImg ⟨128, 128, 128⟩ 2 2)))
        ++ List.replicate 101
          (processPath (PathOutcome.image (uniformImg ⟨0, 0, 255⟩ 2 2))) := by
  have hg : decide ((processPath (PathOutcome.image
      (uniformImg ⟨128, 128, 128⟩ 2 2))).className ≠ "invalid") = true := by
    rw [pred_gray2.1]
    decide
  have hb : decide ((processPath (PathOutcome.image
      (uniformImg ⟨0, 0, 255⟩ 2 2))).className ≠ "invalid") = true := by
    rw [pred_blue2.1]
    decide
  unfold validPreds
  rw [List.map_append, List.map_replicate, List.map_replicate, List.filter_append]
  rw [List.filter_replicate, List.filter_replicate, hg, hb]
  simp

/-- The unrounded average confidence of the 201-image batch:
(100 * 0.5 + 101 * 0.7) / 201 = 1207/2010, slightly above 0.6. -/
theorem batchAvg_bigBatch :
    batchAvg (List.replicate 100 (PathOutcome.image (uniformImg ⟨128, 128, 128⟩ 2 2))
        ++ List.replicate 101 (PathOutcome.image (uniformImg ⟨0, 0, 255⟩ 2 2)))
      = 1207 / 2010 := by
  unfold batchAvg
  rw [validPreds_bigBatch]
  rw [List.map_append, List.map_replicate, List.map_replicate,
    pred_gray2.2, pred_blue2.2]
  rw [List.sum_append, List.sum_replicate, List.sum_replicate]
  rw [if_neg (by simp [List.isEmpty_iff])]
  simp only [nsmul_eq_mul, List.length_append, List.length_replicate]
  norm_num

/-- Rounding the batch average 1207/2010 to three decimals gives
exactly 0.6. -/
theorem roundTo3_bigAvg : roundTo 3 ((1207 : ℚ) / 2010) = 0.6 := by
  have h : roundHE ((1207 / 2010 : ℚ) * 10 ^ 3) = 600 :=
    roundHE_eq_of_lt_half _ 600 (by norm_num) (by norm_num)
  rw [roundTo, h]
  norm_num

/-- Counterexample to C6: on the 201-image gray/blue batch the unrounded
mean is 1207/2010 > 0.6, so `isValid` is true, yet the returned
`averageConfidence` is the rounded value 0.6, which is not greater
than 0.6: `isValid` is not equivalent to `averageConfidence > 0.6`. -/
theorem C6_counterexample :
    (getResp (classify_images true
        (List.replicate 100 (PathOutcome.image (uniformImg ⟨128, 128, 128⟩ 2 2))
          ++ List.replicate 101 (PathOutcome.image (uniformImg ⟨0, 0, 255⟩ 2 2))))).isValid
        = true
    ∧ ¬ ((getResp (classify_images true
        (List.replicate 100 (PathOutcome.image (uniformImg ⟨128, 128, 128⟩ 2 2))
          ++ List.replicate 101 (PathOutcome.image (uniformImg ⟨0, 0, 255⟩ 2 2))))).averageConfidence
        > 0.6) := by
  have hne : (List.replicate 100 (PathOutcome.image (uniformImg ⟨128, 128, 128⟩ 2 2))
      ++ List.replicate 101 (PathOutcome.image (uniformImg ⟨0, 0, 255⟩ 2 2)))
      ≠ ([] : List PathOutcome) := by simp
  rw [classify_images_ok _ hne, getResp_ok]
  show decide _ = true ∧ ¬ (roundTo 3 _ > (0.6 : ℚ))
  rw [batchAvg_bigBatch, roundTo3_bigAvg]
  constructor
  · exact decide_eq_true (by norm_num)
  · norm_num

/-- C6 amended: `averageConfidence` is the arithmetic mean of the
confidences of the non-invalid predictions rounded to 3 decimals (0 when
there are none); `isValid` holds iff the UNROUNDED mean exceeds 0.6; and
`validImages` plus the number of invalid predictions equals
`totalImages`. -/
theorem C6_amended_aggregation (paths : List PathOutcome) (hne : paths ≠ []) :
    ∃ resp, classify_images true paths = Except.ok resp
      ∧ resp.averageConfidence = roundTo 3 (batchAvg paths)
      ∧ (validPreds paths = [] → resp.averageConfidence = 0)
      ∧ (resp.isValid = true ↔ batchAvg paths > 0.6)
      ∧ resp.validImages
          + ((paths.map processPath).filter
              (fun p => decide (p.className = "invalid"))).length
          = resp.totalImages := by
  refine ⟨_, classify_images_ok paths hne, rfl, ?_, ?_, ?_⟩
  · intro hv
    have hz : batchAvg paths = 0 := by
      rw [batchAvg, if_pos (by simp [hv])]
    show roundTo 3 (batchAvg paths) = 0
    rw [hz, roundTo_exact 3 0 0 (by norm_num)]
    norm_num
  · show decide (batchAvg paths > 0.6) = true ↔ batchAvg paths > 0.6
    simp
  · show (validPreds paths).length + _ = paths.length
    have hpart := @List.length_eq_length_filter_add ImagePrediction
      (paths.map processPath) (fun p => decide (p.className ≠ "invalid"))
    have hfun : (fun p : ImagePrediction => ! decide (p.className ≠ "invalid"))
        = fun p : ImagePrediction => decide (p.className = "invalid") := by
      funext p
      simp [decide_not]
    rw [List.length_map, hfun] at hpart
    rw [validPreds]
    omega

/-- Witness for C6 on the one-element batch of a missing path: no valid
predictions, average 0, `isValid` false, and 0 valid plus 1 invalid
equals 1 total. -/
theorem C6_amended_aggregation_witness :
    ([PathOutcome.missing "a.png"] ≠ ([] : List PathOutcome))
    ∧ validPreds [PathOutcome.missing "a.png"] = []
    ∧ (∃ resp, classify_images true [PathOutcome.missing "a.png"] = Except.ok resp
        ∧ resp.averageConfidence = roundTo 3 (batchAvg [PathOutcome.missing "a.png"])
        ∧ resp.averageConfidence = 0
        ∧ (resp.isValid = true ↔ batchAvg [PathOutcome.missing "a.png"] > 0.6)
        ∧ resp.validImages
            + (([PathOutcome.missing "a.png"].map processPath).filter
                (fun p => decide (p.className = "invalid"))).length
            = resp.totalImages) := by
  have hne : [PathOutcome.missing "a.png"] ≠ ([] : List PathOutcome) := by simp
  have hv : validPreds [PathOutcome.missing "a.png"] = [] := by
    unfold validPreds
    simp [processPath_missing]
  obtain ⟨resp, h1, h2, h3, h4, h5⟩ := C6_amended_aggregation [PathOutcome.missing "a.png"] hne
  exact ⟨hne, hv, resp, h1, h2, h3 hv, h4, h5⟩
